import Mathlib

/-!
Shallow embedding of the authentication, session and organization subsystem
of the VOICEcheck backend.

Sources embedded:
- app/auth/models.py        (UserRole, User, Organization, Membership, Session)
- app/auth/service.py       (AuthService: tokens, sessions, login, logout,
                             refresh_tokens, switch_organization, authenticate)
- app/auth/organizations.py (OrganizationsService: membership management,
                             last-owner checks, access-code generation)
- app/auth/dependencies.py  (_get_user_from_token: request-time resolution)
- app/routers/auth.py       (logout endpoint)

Database rows are lists of records; SQLAlchemy point queries with
scalar_one_or_none become List.find?, count queries become List.filter
followed by length, and ORM attribute mutation on the object returned by a
point query becomes an update of the first matching row.  Random values
(uuid4 jtis, session ids, random access-code draws) are passed in as
explicit arguments.  Clock time is an integer; TTLs from config.py are
fields of a Settings record.
-/

namespace VoiceCheck

/-- Roles within an organization, from class UserRole in app/auth/models.py. -/
inductive UserRole where
  | owner
  | admin
  | member
  | viewer
deriving DecidableEq, Repr

/-- The string stored in the role column for each role (the enum value). -/
def UserRole.value : UserRole → String
  | .owner => "owner"
  | .admin => "admin"
  | .member => "member"
  | .viewer => "viewer"

/-- UserRole.all from the source: the list of all valid role names. -/
def UserRole.all : List String :=
  ["owner", "admin", "member", "viewer"]

/-- A row of the users table (app/auth/models.py, class User). -/
structure User where
  id : Nat
  username : Option String
  email : Option String
  password_hash : String
  is_active : Bool
deriving DecidableEq, Repr

/-- A row of the organizations table (app/auth/models.py, class Organization). -/
structure Organization where
  id : Nat
  name : String
  slug : String
  access_code : String
  is_active : Bool
deriving DecidableEq, Repr

/-- A row of the memberships table (app/auth/models.py, class Membership). -/
structure Membership where
  user_id : Nat
  organization_id : Nat
  role : String
  is_active : Bool
deriving DecidableEq, Repr

/-- A row of the sessions table (app/auth/models.py, class Session). -/
structure Session where
  id : Nat
  user_id : Nat
  token_jti : String
  refresh_token_jti : Option String
  organization_id : Option Nat
  expires_at : Int
  is_active : Bool
deriving DecidableEq, Repr

/-- The database state seen by the services. -/
structure DB where
  users : List User
  organizations : List Organization
  memberships : List Membership
  sessions : List Session
deriving DecidableEq, Repr

/-- Process configuration from app/config.py (env-supplied, defaults shown
in defaultSettings). -/
structure Settings where
  JWT_SECRET_KEY : String
  JWT_ACCESS_TOKEN_EXPIRE_MINUTES : Nat
  JWT_REFRESH_TOKEN_EXPIRE_DAYS : Nat
  PASSWORD_MIN_LENGTH : Nat
  PASSWORD_MAX_LENGTH : Nat
  FEATURE_FLAG_AUTH : Bool
deriving DecidableEq, Repr

/-- The default configuration values from app/config.py. -/
def defaultSettings : Settings :=
  { JWT_SECRET_KEY := "voicecheck-secret-key-change-in-production"
    JWT_ACCESS_TOKEN_EXPIRE_MINUTES := 60
    JWT_REFRESH_TOKEN_EXPIRE_DAYS := 30
    PASSWORD_MIN_LENGTH := 8
    PASSWORD_MAX_LENGTH := 128
    FEATURE_FLAG_AUTH := true }

/-- The where-clause of OrganizationsService.get_membership: rows matching
the (organization_id, user_id) pair, with no filter on is_active. -/
def membership_matches (organization_id user_id : Nat) (m : Membership) : Bool :=
  m.organization_id == organization_id && m.user_id == user_id

/-- OrganizationsService.get_membership: point query on the membership pair
(scalar_one_or_none; the schema makes the pair unique). -/
def get_membership (db : DB) (organization_id user_id : Nat) : Option Membership :=
  db.memberships.find? (membership_matches organization_id user_id)

/-- The where-clause of OrganizationsService.count_members_by_role: rows of
the organization with the given role value that are active. -/
def role_filter (organization_id : Nat) (role : UserRole) (m : Membership) : Bool :=
  m.organization_id == organization_id && m.role == role.value && m.is_active

/-- OrganizationsService.count_members_by_role: count of active memberships
of the organization with the given role. -/
def count_members_by_role (db : DB) (organization_id : Nat) (role : UserRole) : Nat :=
  (db.memberships.filter (role_filter organization_id role)).length

/-- Update the first row matching p (the ORM mutates the single object
returned by the point query; the pair is unique in the schema). -/
def updateFirst {α : Type} (p : α → Bool) (f : α → α) : List α → List α
  | [] => []
  | a :: rest => if p a then f a :: rest else a :: updateFirst p f rest

/-- Errors raised by the membership mutations (ValueError messages in the
source: last-owner rejection and invalid-role rejection). -/
inductive OrgError where
  | lastOwner
  | invalidRole
deriving DecidableEq, Repr

/-- OrganizationsService.remove_member: soft-deletes the membership, but
raises the last-owner ValueError when the target role is owner and the
organization has at most one active owner membership. -/
def remove_member (db : DB) (organization_id user_id : Nat) :
    Except OrgError (Bool × DB) :=
  match get_membership db organization_id user_id with
  | none => .ok (false, db)
  | some m =>
    if m.role = UserRole.owner.value ∧
        count_members_by_role db organization_id UserRole.owner ≤ 1 then
      .error .lastOwner
    else
      .ok (true, { db with
        memberships := updateFirst (membership_matches organization_id user_id)
          (fun mm => { mm with is_active := false }) db.memberships })

/-- OrganizationsService.change_member_role: validates the role name, then
changes the role, raising the last-owner ValueError when demoting an owner
of an organization with at most one active owner membership. -/
def change_member_role (db : DB) (organization_id user_id : Nat) (new_role : String) :
    Except OrgError (Option Membership × DB) :=
  if new_role ∈ UserRole.all then
    match get_membership db organization_id user_id with
    | none => .ok (none, db)
    | some m =>
      if m.role = UserRole.owner.value ∧ new_role ≠ UserRole.owner.value ∧
          count_members_by_role db organization_id UserRole.owner ≤ 1 then
        .error .lastOwner
      else
        .ok (some { m with role := new_role }, { db with
          memberships := updateFirst (membership_matches organization_id user_id)
            (fun mm => { mm with role := new_role }) db.memberships })
  else
    .error .invalidRole

/-- OrganizationsService.add_member: inserts a fresh active membership row. -/
def add_member (db : DB) (organization_id user_id : Nat) (role : String) :
    Membership × DB :=
  let m : Membership :=
    { user_id := user_id, organization_id := organization_id,
      role := role, is_active := true }
  (m, { db with memberships := db.memberships ++ [m] })

/-- The last-owner invariant of the spec: the organization has at least one
active membership with role owner. -/
def hasActiveOwner (db : DB) (organization_id : Nat) : Prop :=
  1 ≤ count_members_by_role db organization_id UserRole.owner

/-- Claims carried by a JWT: the payload dict built in create_access_token
and create_refresh_token of app/auth/service.py; the org claim is present
exactly when an organization id was supplied at issuance. -/
structure TokenPayload where
  sub : Nat
  jti : String
  iat : Int
  exp : Int
  type : String
  org_id : Option Nat
deriving DecidableEq, Repr

/-- A signed token: the payload together with the symmetric signature,
modelled as the signing key (jose jwt.encode with a shared-secret scheme). -/
structure Token where
  payload : TokenPayload
  sig : String
deriving DecidableEq, Repr

/-- Failures of jwt.decode as surfaced by AuthService.decode_token. -/
inductive TokenError where
  | expired
  | invalid
deriving DecidableEq, Repr

/-- jwt.encode: sign the payload with the shared secret. -/
def jwt_encode (payload : TokenPayload) (key : String) : Token :=
  { payload := payload, sig := key }

/-- jwt.decode: verify the signature, then the exp claim against the clock. -/
def jwt_decode (t : Token) (key : String) (now : Int) :
    Except TokenError TokenPayload :=
  if t.sig ≠ key then .error .invalid
  else if t.payload.exp ≤ now then .error .expired
  else .ok t.payload

/-- AuthService.create_access_token: subject, fresh jti, type access, expiry
now plus the configured minutes, and the org claim when supplied. -/
def create_access_token (st : Settings) (user_id : Nat)
    (organization_id : Option Nat) (jti : String) (now : Int) : Token × String :=
  let payload : TokenPayload :=
    { sub := user_id, jti := jti, iat := now,
      exp := now + (st.JWT_ACCESS_TOKEN_EXPIRE_MINUTES : Int) * 60,
      type := "access", org_id := organization_id }
  (jwt_encode payload st.JWT_SECRET_KEY, jti)

/-- AuthService.create_refresh_token: subject, fresh jti, type refresh,
expiry now plus the configured days, never an org claim. -/
def create_refresh_token (st : Settings) (user_id : Nat) (jti : String)
    (now : Int) : Token × String :=
  let payload : TokenPayload :=
    { sub := user_id, jti := jti, iat := now,
      exp := now + (st.JWT_REFRESH_TOKEN_EXPIRE_DAYS : Int) * 86400,
      type := "refresh", org_id := none }
  (jwt_encode payload st.JWT_SECRET_KEY, jti)

/-- AuthService.decode_token: jwt.decode against the configured secret. -/
def decode_token (st : Settings) (now : Int) (t : Token) :
    Except TokenError TokenPayload :=
  jwt_decode t st.JWT_SECRET_KEY now

/-- AuthService.verify_token_type: compare the type claim. -/
def verify_token_type (payload : TokenPayload) (token_type : String) : Bool :=
  payload.type == token_type

/-- AuthService.get_user_by_email: active users only. -/
def get_user_by_email (db : DB) (email : String) : Option User :=
  db.users.find? (fun u => u.email == some email && u.is_active)

/-- AuthService.get_user_by_id: no filter on is_active. -/
def get_user_by_id (db : DB) (user_id : Nat) : Option User :=
  db.users.find? (fun u => u.id == user_id)

/-- AuthService.authenticate; bcrypt checkpw is the external password
primitive, taken as the verify parameter. -/
def authenticate (verify : String → String → Bool) (db : DB)
    (email password : String) : Option User :=
  match get_user_by_email db email with
  | none => none
  | some user => if verify password user.password_hash then some user else none

/-- AuthService.get_session_by_jti: active sessions only. -/
def get_session_by_jti (db : DB) (jti : String) : Option Session :=
  db.sessions.find? (fun s => s.token_jti == jti && s.is_active)

/-- AuthService.get_session_by_refresh_jti: active sessions only. -/
def get_session_by_refresh_jti (db : DB) (jti : String) : Option Session :=
  db.sessions.find? (fun s => s.refresh_token_jti == some jti && s.is_active)

/-- AuthService.revoke_session: sets is_active false on that session row. -/
def revoke_session (db : DB) (s : Session) : DB :=
  { db with
    sessions := db.sessions.map fun t =>
      if t.id == s.id then { t with is_active := false } else t }

/-- The fresh random identifiers drawn by create_session (uuid4 values). -/
structure Fresh where
  session_id : Nat
  access_jti : String
  refresh_jti : String
deriving DecidableEq, Repr

/-- AuthService.create_session: issues an access and refresh token pair and
persists one session row whose expiry tracks the access-token lifetime. -/
def create_session (st : Settings) (db : DB) (user_id : Nat)
    (organization_id : Option Nat) (f : Fresh) (now : Int) : Session × DB :=
  let s : Session :=
    { id := f.session_id, user_id := user_id, token_jti := f.access_jti,
      refresh_token_jti := some f.refresh_jti,
      organization_id := organization_id,
      expires_at := now + (st.JWT_ACCESS_TOKEN_EXPIRE_MINUTES : Int) * 60,
      is_active := true }
  (s, { db with sessions := db.sessions ++ [s] })

/-- Session.is_valid from app/auth/models.py: active and not yet expired. -/
def session_is_valid (s : Session) (now : Int) : Bool :=
  s.is_active && decide (now < s.expires_at)

/-- AuthService.logout: revoke the session behind the access jti when an
active one exists; report whether one was revoked. -/
def logout (db : DB) (jti : String) : Bool × DB :=
  match get_session_by_jti db jti with
  | some s => (true, revoke_session db s)
  | none => (false, db)

/-- AuthService.refresh_tokens: look up the active session by refresh jti,
require an active user, then revoke the old session and create a new one
carrying the same organization id. -/
def refresh_tokens (st : Settings) (db : DB) (refresh_jti : String) (f : Fresh)
    (now : Int) : Option (Session × User) × DB :=
  match get_session_by_refresh_jti db refresh_jti with
  | none => (none, db)
  | some s =>
    match get_user_by_id db s.user_id with
    | none => (none, db)
    | some user =>
      if user.is_active then
        let p := create_session st (revoke_session db s) user.id
          s.organization_id f now
        (some (p.1, user), p.2)
      else (none, db)

/-- AuthService.is_organization_member: an active membership row exists. -/
def is_organization_member (db : DB) (user_id organization_id : Nat) : Bool :=
  (db.memberships.find? (fun m =>
    m.user_id == user_id && m.organization_id == organization_id &&
      m.is_active)).isSome

/-- AuthService.switch_organization: reject unless an active membership in
the target organization exists; only then revoke the current session and
create one bound to the new organization. -/
def switch_organization (st : Settings) (db : DB) (user_id organization_id : Nat)
    (current_jti : String) (f : Fresh) (now : Int) : Option Session × DB :=
  if is_organization_member db user_id organization_id then
    let db1 :=
      match get_session_by_jti db current_jti with
      | some s => revoke_session db s
      | none => db
    let p := create_session st db1 user_id (some organization_id) f now
    (some p.1, p.2)
  else (none, db)

/-- The request-time authorization resolution _get_user_from_token from
app/auth/dependencies.py: decode, require type access, resolve an active
user, then require the session behind the jti to exist and be valid. -/
def get_user_from_token (st : Settings) (db : DB) (now : Int)
    (token : Option Token) : Option (User × Option Nat) :=
  match token with
  | none => none
  | some t =>
    match decode_token st now t with
    | .error _ => none
    | .ok payload =>
      if verify_token_type payload "access" then
        match get_user_by_id db payload.sub with
        | none => none
        | some user =>
          if user.is_active then
            match get_session_by_jti db payload.jti with
            | none => none
            | some s =>
              if session_is_valid s now then some (user, payload.org_id)
              else none
          else none
      else none

/-- Failures of the logout endpoint in app/routers/auth.py. -/
inductive ApiError where
  | missing_token
  | invalid_token
  | auth_disabled
deriving DecidableEq, Repr

/-- The logout endpoint in app/routers/auth.py: 503 when auth is disabled,
401 on a missing token, a decode failure or a missing jti claim; otherwise
revokes via AuthService.logout, discarding its boolean result, and reports
success unconditionally. -/
def router_logout (st : Settings) (db : DB) (now : Int) (token : Option Token) :
    Except ApiError (String × DB) :=
  if st.FEATURE_FLAG_AUTH then
    match token with
    | none => .error .missing_token
    | some t =>
      match decode_token st now t with
      | .error _ => .error .invalid_token
      | .ok payload =>
        if payload.jti = "" then .error .invalid_token
        else .ok ("Successfully logged out", (logout db payload.jti).2)
  else .error .auth_disabled

/-- One access-code draw collides when an organization row already carries
it (the uniqueness check inside _generate_access_code). -/
def access_code_taken (db : DB) (code : String) : Bool :=
  (db.organizations.find? (fun o => o.access_code == code)).isSome

/-- OrganizationsService._generate_access_code: the source is an unbounded
while-True loop of draw-then-check with no retry cap and no error path.
The loop is run along an explicit list of random draws; none means the loop
consumed every supplied draw without returning and is still spinning. -/
def generate_access_code_loop (db : DB) : List String → Option String
  | [] => none
  | c :: rest =>
    if access_code_taken db c then generate_access_code_loop db rest
    else some c

/-- The concrete database used to witness claim C1: one organization with a
single active owner membership. -/
def dbC1 : DB :=
  { users := [], organizations := [], sessions := [],
    memberships := [{ user_id := 1, organization_id := 10,
                      role := "owner", is_active := true }] }

/-- The concrete database used to witness claim C10: the target membership
of user 1 is an inactive owner row; user 2 is the single active owner. -/
def dbC10 : DB :=
  { users := [], organizations := [], sessions := [],
    memberships :=
      [{ user_id := 1, organization_id := 10, role := "owner", is_active := false },
       { user_id := 2, organization_id := 10, role := "owner", is_active := true }] }

/-- Concrete user for the session witnesses. -/
def userW : User :=
  { id := 1, username := some "u1", email := some "u1@example.com",
    password_hash := "hash1", is_active := true }

/-- Concrete active session for the claim C2 witness. -/
def sessC2 : Session :=
  { id := 1, user_id := 1, token_jti := "a1",
    refresh_token_jti := some "r1", organization_id := none,
    expires_at := 1000, is_active := true }

/-- Concrete database for the claim C2 witness. -/
def dbC2 : DB :=
  { users := [userW], organizations := [], memberships := [],
    sessions := [sessC2] }

/-- Concrete access token for the claim C2 witness, as issued for sessC2. -/
def tokC2 : Token :=
  { payload := { sub := 1, jti := "a1", iat := 0, exp := 500,
                 type := "access", org_id := none },
    sig := defaultSettings.JWT_SECRET_KEY }

/-- Concrete active session for the claim C3 witness. -/
def sessC3 : Session :=
  { id := 1, user_id := 1, token_jti := "a1",
    refresh_token_jti := some "r1", organization_id := none,
    expires_at := 1000, is_active := true }

/-- Concrete database for the claim C3 witness. -/
def dbC3 : DB :=
  { users := [userW], organizations := [], memberships := [],
    sessions := [sessC3] }

/-- Concrete database for the claim C5 witness. -/
def dbC5 : DB :=
  { users := [userW], organizations := [], memberships := [],
    sessions := [{ id := 1, user_id := 1, token_jti := "a5",
                   refresh_token_jti := some "r5", organization_id := none,
                   expires_at := 1000, is_active := true }] }

/-- Concrete access token for the claim C5 witness. -/
def tokC5 : Token :=
  { payload := { sub := 1, jti := "a5", iat := 0, exp := 500,
                 type := "access", org_id := none },
    sig := defaultSettings.JWT_SECRET_KEY }

/-- Concrete database for the claim C6 witness: user 1 has a session but no
membership anywhere. -/
def dbC6 : DB :=
  { users := [userW], organizations := [], memberships := [],
    sessions := [{ id := 1, user_id := 1, token_jti := "a6",
                   refresh_token_jti := some "r6", organization_id := none,
                   expires_at := 1000, is_active := true }] }

/-- Test double for the bcrypt verify primitive in the claim C7 witness. -/
def vfyC7 : String → String → Bool :=
  fun password digest => password == digest

/-- Concrete database for the claim C7 witness. -/
def dbC7 : DB :=
  { users := [{ id := 1, username := none, email := some "u1@example.com",
                password_hash := "pw1", is_active := true }],
    organizations := [], memberships := [], sessions := [] }

/-- Concrete database for the claim C9 witness: the session row is active
but its expires_at is already in the past at the witness clock time. -/
def dbC9 : DB :=
  { users := [userW], organizations := [], memberships := [],
    sessions := [{ id := 1, user_id := 1, token_jti := "a9",
                   refresh_token_jti := some "r9", organization_id := none,
                   expires_at := 10, is_active := true }] }

/-- Concrete database for the claim C4 witness: the code AAAAAA is taken. -/
def dbC4 : DB :=
  { users := [],
    organizations := [{ id := 1, name := "Acme", slug := "acme",
                        access_code := "AAAAAA", is_active := true }],
    memberships := [], sessions := [] }

section ListLemmas

variable {α : Type}

theorem find?_split {p : α → Bool} : ∀ {l : List α} {a : α},
    l.find? p = some a →
    ∃ l1 l2, l = l1 ++ a :: l2 ∧ (∀ x ∈ l1, p x = false) ∧ p a = true := by
  intro l
  induction l with
  | nil => intro a h; simp [List.find?] at h
  | cons b rest ih =>
    intro a h
    by_cases hb : p b
    · rw [List.find?_cons_of_pos _ hb] at h
      cases h
      exact ⟨[], rest, by simp, by simp, hb⟩
    · rw [List.find?_cons_of_neg _ hb] at h
      obtain ⟨l1, l2, he, hall, hpa⟩ := ih h
      refine ⟨b :: l1, l2, by simp [he], ?_, hpa⟩
      intro x hx
      rcases List.mem_cons.mp hx with hx | hx
      · subst hx; exact Bool.eq_false_iff.mpr hb
      · exact hall x hx

theorem updateFirst_append {p : α → Bool} {f : α → α} :
    ∀ {l1 : List α} {a : α} {l2 : List α},
    (∀ x ∈ l1, p x = false) → p a = true →
    updateFirst p f (l1 ++ a :: l2) = l1 ++ f a :: l2 := by
  intro l1
  induction l1 with
  | nil => intro a l2 _ ha; simp [updateFirst, ha]
  | cons b rest ih =>
    intro a l2 h1 ha
    have hb : p b = false := h1 b (by simp)
    show (if p b then f b :: (rest ++ a :: l2)
          else b :: updateFirst p f (rest ++ a :: l2)) = b :: (rest ++ f a :: l2)
    rw [hb]
    simp only [Bool.false_eq_true, if_false]
    exact congrArg (List.cons b) (ih (fun x hx => h1 x (List.mem_cons_of_mem _ hx)) ha)

theorem filter_length_split (q : α → Bool) (l1 : List α) (a : α) (l2 : List α) :
    ((l1 ++ a :: l2).filter q).length =
      (l1.filter q).length + (if q a then 1 else 0) + (l2.filter q).length := by
  simp only [List.filter_append, List.filter_cons, List.length_append]
  by_cases hqa : q a
  · simp [hqa]; omega
  · simp [hqa]

end ListLemmas

theorem remove_member_lastOwner_rejected {db : DB} {org uid : Nat} {m : Membership}
    (hm : get_membership db org uid = some m)
    (hrole : m.role = UserRole.owner.value)
    (hcnt : count_members_by_role db org UserRole.owner ≤ 1) :
    remove_member db org uid = .error .lastOwner := by
  have hc : m.role = UserRole.owner.value ∧
      count_members_by_role db org UserRole.owner ≤ 1 := ⟨hrole, hcnt⟩
  unfold remove_member
  simp only [hm]
  rw [if_pos hc]

theorem change_member_role_rejected {db : DB} {org uid : Nat} {m : Membership}
    {nr : String}
    (hm : get_membership db org uid = some m)
    (hrole : m.role = UserRole.owner.value)
    (hnr : nr ≠ UserRole.owner.value)
    (hcnt : count_members_by_role db org UserRole.owner ≤ 1) :
    ∃ e, change_member_role db org uid nr = .error e := by
  have hc : m.role = UserRole.owner.value ∧ nr ≠ UserRole.owner.value ∧
      count_members_by_role db org UserRole.owner ≤ 1 := ⟨hrole, hnr, hcnt⟩
  unfold change_member_role
  by_cases hin : nr ∈ UserRole.all
  · rw [if_pos hin]
    simp only [hm]
    exact ⟨.lastOwner, by rw [if_pos hc]⟩
  · rw [if_neg hin]
    exact ⟨.invalidRole, rfl⟩

theorem membership_matches_fields {org uid : Nat} {m : Membership}
    (h : membership_matches org uid m = true) :
    m.organization_id = org ∧ m.user_id = uid := by
  unfold membership_matches at h
  simp only [Bool.and_eq_true, beq_iff_eq] at h
  exact h

theorem role_filter_true_iff {o : Nat} {r : UserRole} {m : Membership} :
    role_filter o r m = true ↔
      (m.organization_id = o ∧ m.role = r.value ∧ m.is_active = true) := by
  unfold role_filter
  simp [Bool.and_eq_true, beq_iff_eq, and_assoc]

theorem remove_member_preserves_owner {db : DB} {org uid : Nat} {r : Bool} {db2 : DB}
    (h : remove_member db org uid = .ok (r, db2)) (o : Nat)
    (hinv : hasActiveOwner db o) : hasActiveOwner db2 o := by
  unfold remove_member at h
  split at h
  case h_1 =>
    injection h with h1
    injection h1 with hr hdb
    subst hdb
    exact hinv
  case h_2 m hm =>
    split at h
    · simp at h
    · rename_i hc
      injection h with h1
      injection h1 with hr hdb
      subst hdb
      obtain ⟨l1, l2, hsplit, hnone, hpm⟩ := find?_split hm
      obtain ⟨horg, huid⟩ := membership_matches_fields hpm
      have hup : updateFirst (membership_matches org uid)
          (fun mm => { mm with is_active := false }) db.memberships =
          l1 ++ { m with is_active := false } :: l2 := by
        rw [hsplit]; exact updateFirst_append hnone hpm
      unfold hasActiveOwner count_members_by_role at hinv ⊢
      simp only [hup]
      rw [hsplit] at hinv
      rw [filter_length_split] at hinv ⊢
      have hm2 : role_filter o UserRole.owner { m with is_active := false } = false := by
        unfold role_filter; simp
      rw [hm2]
      simp only [Bool.false_eq_true, if_false]
      by_cases hqm : role_filter o UserRole.owner m = true
      · obtain ⟨ho, hrolem, hact⟩ := role_filter_true_iff.mp hqm
        have hoorg : o = org := by rw [← ho, horg]
        subst hoorg
        have hcnt2 : ¬ count_members_by_role db o UserRole.owner ≤ 1 := by
          intro hle
          exact hc ⟨hrolem, hle⟩
        unfold count_members_by_role at hcnt2
        rw [hsplit, filter_length_split, hqm] at hcnt2
        simp only [if_true] at hcnt2
        omega
      · rw [Bool.not_eq_true] at hqm
        rw [hqm] at hinv
        simp only [Bool.false_eq_true, if_false] at hinv
        omega

theorem change_member_role_preserves_owner {db : DB} {org uid : Nat} {nr : String}
    {res : Option Membership} {db2 : DB}
    (h : change_member_role db org uid nr = .ok (res, db2)) (o : Nat)
    (hinv : hasActiveOwner db o) : hasActiveOwner db2 o := by
  unfold change_member_role at h
  split at h
  · split at h
    case h_1 =>
      injection h with h1
      injection h1 with hr hdb
      subst hdb
      exact hinv
    case h_2 m hm =>
      split at h
      · simp at h
      · rename_i hc
        injection h with h1
        injection h1 with hr hdb
        subst hdb
        obtain ⟨l1, l2, hsplit, hnone, hpm⟩ := find?_split hm
        obtain ⟨horg, huid⟩ := membership_matches_fields hpm
        have hup : updateFirst (membership_matches org uid)
            (fun mm => { mm with role := nr }) db.memberships =
            l1 ++ { m with role := nr } :: l2 := by
          rw [hsplit]; exact updateFirst_append hnone hpm
        unfold hasActiveOwner count_members_by_role at hinv ⊢
        simp only [hup]
        rw [hsplit] at hinv
        rw [filter_length_split] at hinv ⊢
        by_cases hqm : role_filter o UserRole.owner m = true
        · obtain ⟨ho, hrolem, hact⟩ := role_filter_true_iff.mp hqm
          have hoorg : o = org := by rw [← ho, horg]
          subst hoorg
          by_cases hnro : nr = UserRole.owner.value
          · have hqm2 : role_filter o UserRole.owner { m with role := nr } = true := by
              rw [role_filter_true_iff]
              exact ⟨ho, hnro, hact⟩
            rw [hqm] at hinv
            rw [hqm2]
            simpa using hinv
          · have hcnt2 : ¬ count_members_by_role db o UserRole.owner ≤ 1 := by
              intro hle
              exact hc ⟨hrolem, hnro, hle⟩
            unfold count_members_by_role at hcnt2
            rw [hsplit, filter_length_split, hqm] at hcnt2
            simp only [if_true] at hcnt2
            by_cases hq2 : role_filter o UserRole.owner { m with role := nr } = true
            · rw [hq2]; simp only [if_true]; omega
            · rw [Bool.not_eq_true] at hq2
              rw [hq2]
              simp only [Bool.false_eq_true, if_false]
              omega
        · rw [Bool.not_eq_true] at hqm
          rw [hqm] at hinv
          simp only [Bool.false_eq_true, if_false] at hinv
          by_cases hq2 : role_filter o UserRole.owner { m with role := nr } = true
          · rw [hq2]; simp only [if_true]; omega
          · rw [Bool.not_eq_true] at hq2
            rw [hq2]
            simp only [Bool.false_eq_true, if_false]
            omega
  · simp at h

theorem add_member_preserves_owner (db : DB) (org uid : Nat) (role : String) (o : Nat)
    (hinv : hasActiveOwner db o) : hasActiveOwner (add_member db org uid role).2 o := by
  unfold hasActiveOwner count_members_by_role at hinv ⊢
  simp only [add_member, List.filter_append, List.length_append]
  omega

/-- Claim C1: when the targeted membership is the only active owner of its
organization, remove_member and change_member_role to any non-owner role
are both rejected with an error before any mutation, and every membership
mutation (add, remove, change role) preserves the invariant that an
organization with an active owner membership keeps one. -/
theorem last_owner_invariant :
    (∀ db org uid m new_role,
        get_membership db org uid = some m →
        m.role = UserRole.owner.value →
        m.is_active = true →
        count_members_by_role db org UserRole.owner = 1 →
        new_role ≠ UserRole.owner.value →
        remove_member db org uid = .error .lastOwner ∧
        ∃ e, change_member_role db org uid new_role = .error e) ∧
    (∀ db org uid r db2 o, remove_member db org uid = .ok (r, db2) →
        hasActiveOwner db o → hasActiveOwner db2 o) ∧
    (∀ db org uid nr res db2 o, change_member_role db org uid nr = .ok (res, db2) →
        hasActiveOwner db o → hasActiveOwner db2 o) ∧
    (∀ db org uid role o, hasActiveOwner db o →
        hasActiveOwner (add_member db org uid role).2 o) := by
  refine ⟨?_, ?_, ?_, ?_⟩
  · intro db org uid m new_role hm hrole _ hcnt hnr
    have hle : count_members_by_role db org UserRole.owner ≤ 1 := le_of_eq hcnt
    exact ⟨remove_member_lastOwner_rejected hm hrole hle,
      change_member_role_rejected hm hrole hnr hle⟩
  · intro db org uid r db2 o h hinv
    exact remove_member_preserves_owner h o hinv
  · intro db org uid nr res db2 o h hinv
    exact change_member_role_preserves_owner h o hinv
  · intro db org uid role o hinv
    exact add_member_preserves_owner db org uid role o hinv

theorem last_owner_invariant_witness :
    remove_member dbC1 10 1 = .error .lastOwner ∧
    ∃ e, change_member_role dbC1 10 1 "member" = .error e :=
  last_owner_invariant.1 dbC1 10 1
    { user_id := 1, organization_id := 10, role := "owner", is_active := true }
    "member" (by decide) (by decide) (by decide) (by decide) (by decide)

/-- Claim C10: the last-owner check in remove_member ignores the target
membership is_active flag, so removal of an already-inactive owner
membership is still rejected when the organization has at most one active
owner membership. -/
theorem remove_member_inactive_owner_rejected :
    ∀ db org uid m,
      get_membership db org uid = some m →
      m.role = UserRole.owner.value →
      m.is_active = false →
      count_members_by_role db org UserRole.owner ≤ 1 →
      remove_member db org uid = .error .lastOwner := by
  intro db org uid m hm hrole _ hcnt
  exact remove_member_lastOwner_rejected hm hrole hcnt

theorem remove_member_inactive_owner_rejected_witness :
    remove_member dbC10 10 1 = .error .lastOwner :=
  remove_member_inactive_owner_rejected dbC10 10 1
    { user_id := 1, organization_id := 10, role := "owner", is_active := false }
    (by decide) (by decide) (by decide) (by decide)

theorem decode_token_ok {st : Settings} {now : Int} {t : Token}
    (hsig : t.sig = st.JWT_SECRET_KEY) (hexp : now < t.payload.exp) :
    decode_token st now t = .ok t.payload := by
  unfold decode_token jwt_decode
  rw [if_neg (by simp [hsig]), if_neg (by omega)]

/-- Claim C8: a token issued by create_access_token or create_refresh_token
and immediately passed to decode_token yields claims whose subject is the
issuing user id, whose type is the issued kind, and whose org claim is the
tenant supplied at issuance (and absent for refresh tokens). -/
theorem token_round_trip (st : Settings) (uid : Nat) (org : Option Nat)
    (jtiA jtiR : String) (now : Int)
    (hacc : 0 < st.JWT_ACCESS_TOKEN_EXPIRE_MINUTES)
    (href : 0 < st.JWT_REFRESH_TOKEN_EXPIRE_DAYS) :
    (∃ p, decode_token st now (create_access_token st uid org jtiA now).1 = .ok p ∧
        p.sub = uid ∧ p.type = "access" ∧ p.org_id = org) ∧
    (∃ q, decode_token st now (create_refresh_token st uid jtiR now).1 = .ok q ∧
        q.sub = uid ∧ q.type = "refresh" ∧ q.org_id = none) := by
  constructor
  · exact ⟨{ sub := uid, jti := jtiA, iat := now,
             exp := now + (st.JWT_ACCESS_TOKEN_EXPIRE_MINUTES : Int) * 60,
             type := "access", org_id := org },
           decode_token_ok rfl
             (by show now < now + (st.JWT_ACCESS_TOKEN_EXPIRE_MINUTES : Int) * 60
                 omega), rfl, rfl, rfl⟩
  · exact ⟨{ sub := uid, jti := jtiR, iat := now,
             exp := now + (st.JWT_REFRESH_TOKEN_EXPIRE_DAYS : Int) * 86400,
             type := "refresh", org_id := none },
           decode_token_ok rfl
             (by show now < now + (st.JWT_REFRESH_TOKEN_EXPIRE_DAYS : Int) * 86400
                 omega), rfl, rfl, rfl⟩

theorem token_round_trip_witness :
    (∃ p, decode_token defaultSettings 0
        (create_access_token defaultSettings 7 (some 3) "jA" 0).1 = .ok p ∧
        p.sub = 7 ∧ p.type = "access" ∧ p.org_id = some 3) ∧
    (∃ q, decode_token defaultSettings 0
        (create_refresh_token defaultSettings 7 "jR" 0).1 = .ok q ∧
        q.sub = 7 ∧ q.type = "refresh" ∧ q.org_id = none) :=
  token_round_trip defaultSettings 7 (some 3) "jA" "jR" 0 (by decide) (by decide)

/-- Claim C7: authenticate succeeds exactly when an active user matches the
identifier and the password verifies against that stored hash, and the
failure value for an unknown identifier equals the failure value for a
wrong password, so the two failures are indistinguishable to the caller. -/
theorem authenticate_iff_uniform_failure (verify : String → String → Bool) (db : DB) :
    (∀ email password u,
        authenticate verify db email password = some u ↔
          (get_user_by_email db email = some u ∧
           verify password u.password_hash = true)) ∧
    (∀ e1 p1 e2 p2 u,
        get_user_by_email db e1 = none →
        get_user_by_email db e2 = some u →
        verify p2 u.password_hash = false →
        authenticate verify db e1 p1 = authenticate verify db e2 p2) := by
  constructor
  · intro email password u
    constructor
    · intro h
      unfold authenticate at h
      split at h
      · cases h
      · rename_i v hv
        split at h
        · rename_i hver
          injection h with h1
          subst h1
          exact ⟨hv, hver⟩
        · cases h
    · rintro ⟨hu, hv⟩
      unfold authenticate
      simp only [hu]
      rw [if_pos hv]
  · intro e1 p1 e2 p2 u h1 h2 hv
    unfold authenticate
    simp only [h1, h2]
    rw [hv]
    simp

theorem authenticate_iff_uniform_failure_witness :
    get_user_by_email dbC7 "nobody@example.com" = none ∧
    vfyC7 "wrong" "pw1" = false ∧
    authenticate vfyC7 dbC7 "nobody@example.com" "pw1" =
      authenticate vfyC7 dbC7 "u1@example.com" "wrong" :=
  ⟨by decide, by decide,
   (authenticate_iff_uniform_failure vfyC7 dbC7).2 "nobody@example.com" "pw1"
     "u1@example.com" "wrong"
     { id := 1, username := none, email := some "u1@example.com",
       password_hash := "pw1", is_active := true }
     (by decide) (by decide) (by decide)⟩

theorem revoke_session_no_active_jti {db : DB} {s : Session} {jti : String}
    (huniq : ∀ s2 ∈ db.sessions, s2.token_jti = jti → s2.id = s.id) :
    get_session_by_jti (revoke_session db s) jti = none := by
  unfold get_session_by_jti revoke_session
  rw [List.find?_eq_none]
  intro x hx
  simp only [List.mem_map] at hx
  obtain ⟨y, hy, hxy⟩ := hx
  subst hxy
  by_cases hid : (y.id == s.id) = true
  · rw [if_pos hid]
    simp
  · rw [if_neg hid]
    intro hp
    simp only [Bool.and_eq_true, beq_iff_eq] at hp
    exact hid (beq_iff_eq.mpr (huniq y hy hp.1))

theorem revoke_session_no_active_refresh_jti {db : DB} {s : Session} {jti : String}
    (huniq : ∀ s2 ∈ db.sessions, s2.refresh_token_jti = some jti → s2.id = s.id) :
    get_session_by_refresh_jti (revoke_session db s) jti = none := by
  unfold get_session_by_refresh_jti revoke_session
  rw [List.find?_eq_none]
  intro x hx
  simp only [List.mem_map] at hx
  obtain ⟨y, hy, hxy⟩ := hx
  subst hxy
  by_cases hid : (y.id == s.id) = true
  · rw [if_pos hid]
    simp
  · rw [if_neg hid]
    intro hp
    simp only [Bool.and_eq_true, beq_iff_eq] at hp
    exact hid (beq_iff_eq.mpr (huniq y hy hp.1))

theorem get_user_from_token_none_of_no_session {st : Settings} {db : DB}
    {now : Int} {t : Token}
    (hdec : decode_token st now t = .ok t.payload)
    (hs : get_session_by_jti db t.payload.jti = none) :
    get_user_from_token st db now (some t) = none := by
  unfold get_user_from_token
  simp only [hdec]
  by_cases ht : verify_token_type t.payload "access" = true
  · rw [if_pos ht]
    cases hu : get_user_by_id db t.payload.sub with
    | none => simp only [hu]
    | some u =>
      simp only [hu]
      by_cases ha : u.is_active = true
      · rw [if_pos ha]
        simp only [hs]
      · rw [if_neg ha]
  · rw [if_neg ht]

/-- Claim C2: after logout revokes the session behind an access jti, the
request-time authorization resolution of a token carrying that jti yields
no authenticated user, even though decode_token on the same token still
succeeds because its signature and expiry are still valid. -/
theorem logout_gates_resolution (st : Settings) (db : DB) (now : Int) (t : Token)
    (s : Session)
    (hsig : t.sig = st.JWT_SECRET_KEY)
    (hexp : now < t.payload.exp)
    (hs : get_session_by_jti db t.payload.jti = some s)
    (huniq : ∀ s2 ∈ db.sessions, s2.token_jti = t.payload.jti → s2.id = s.id) :
    decode_token st now t = .ok t.payload ∧
    get_user_from_token st (logout db t.payload.jti).2 now (some t) = none := by
  have hdec := decode_token_ok hsig hexp
  refine ⟨hdec, ?_⟩
  have hlog : (logout db t.payload.jti).2 = revoke_session db s := by
    unfold logout
    simp only [hs]
  rw [hlog]
  exact get_user_from_token_none_of_no_session hdec
    (revoke_session_no_active_jti huniq)

theorem logout_gates_resolution_witness :
    decode_token defaultSettings 100 tokC2 = .ok tokC2.payload ∧
    get_user_from_token defaultSettings (logout dbC2 "a1").2 100 (some tokC2) =
      none :=
  logout_gates_resolution defaultSettings dbC2 100 tokC2 sessC2
    (by decide) (by decide) (by decide) (by decide)

/-- Claim C3: refresh tokens are single-use: a successful refresh_tokens
call revokes the old session, so a second refresh_tokens call presenting
the same refresh jti returns no new session. -/
theorem refresh_tokens_single_use (st : Settings) (db : DB) (j : String)
    (f f2 : Fresh) (now now2 : Int) (s : Session) (u : User)
    (hfind : get_session_by_refresh_jti db j = some s)
    (huser : get_user_by_id db s.user_id = some u)
    (hact : u.is_active = true)
    (huniq : ∀ s2 ∈ db.sessions, s2.refresh_token_jti = some j → s2.id = s.id)
    (hfresh : f.refresh_jti ≠ j) :
    ((refresh_tokens st db j f now).1).isSome = true ∧
    (refresh_tokens st (refresh_tokens st db j f now).2 j f2 now2).1 = none := by
  have hrun : refresh_tokens st db j f now =
      (some ((create_session st (revoke_session db s) u.id
          s.organization_id f now).1, u),
       (create_session st (revoke_session db s) u.id
          s.organization_id f now).2) := by
    unfold refresh_tokens
    simp [hfind, huser, hact]
  constructor
  · rw [hrun]
    rfl
  · rw [hrun]
    have hnone : get_session_by_refresh_jti
        (create_session st (revoke_session db s) u.id
          s.organization_id f now).2 j = none := by
      have hrev : get_session_by_refresh_jti (revoke_session db s) j = none :=
        revoke_session_no_active_refresh_jti huniq
      unfold get_session_by_refresh_jti at hrev ⊢
      rw [List.find?_eq_none]
      intro x hx
      simp only [create_session, List.mem_append] at hx
      rcases hx with hx | hx
      · exact List.find?_eq_none.mp hrev x hx
      · simp only [List.mem_singleton] at hx
        subst hx
        simp [hfresh]
    unfold refresh_tokens
    simp only [hnone]

theorem refresh_tokens_single_use_witness :
    ((refresh_tokens defaultSettings dbC3 "r1" ⟨2, "a2", "r2"⟩ 50).1).isSome = true ∧
    (refresh_tokens defaultSettings
      (refresh_tokens defaultSettings dbC3 "r1" ⟨2, "a2", "r2"⟩ 50).2
      "r1" ⟨3, "a3", "r3"⟩ 60).1 = none :=
  refresh_tokens_single_use defaultSettings dbC3 "r1" ⟨2, "a2", "r2"⟩
    ⟨3, "a3", "r3"⟩ 50 60 sessC3 userW
    (by decide) (by decide) (by decide) (by decide) (by decide)

theorem logout_all_inactive {db : DB} {jti : String}
    (huniq : ∀ s1 ∈ db.sessions, ∀ s2 ∈ db.sessions,
        s1.token_jti = jti → s2.token_jti = jti → s1.id = s2.id) :
    ∀ x ∈ (logout db jti).2.sessions, x.token_jti = jti → x.is_active = false := by
  unfold logout
  cases hs : get_session_by_jti db jti with
  | none =>
    simp only [hs]
    intro x hx hjx
    have hnone := hs
    unfold get_session_by_jti at hnone
    have hnp := List.find?_eq_none.mp hnone x hx
    cases hact : x.is_active
    · rfl
    · exfalso
      apply hnp
      simp [hjx, hact]
  | some s =>
    simp only [hs]
    intro x hx hjx
    have hs2 : db.sessions.find?
        (fun s2 => s2.token_jti == jti && s2.is_active) = some s := hs
    have hmem : s ∈ db.sessions := List.mem_of_find?_eq_some hs2
    simp only [revoke_session, List.mem_map] at hx
    obtain ⟨y, hy, hxy⟩ := hx
    subst hxy
    by_cases hid : (y.id == s.id) = true
    · rw [if_pos hid] at hjx ⊢
    · rw [if_neg hid] at hjx ⊢
      have hps := List.find?_some hs2
      simp only [Bool.and_eq_true, beq_iff_eq] at hps
      exact absurd (beq_iff_eq.mpr (huniq y hy s hmem hjx hps.1)) hid

theorem logout_noop_of_all_inactive {db : DB} {jti : String}
    (h : ∀ x ∈ db.sessions, x.token_jti = jti → x.is_active = false) :
    logout db jti = (false, db) := by
  have hn : get_session_by_jti db jti = none := by
    unfold get_session_by_jti
    rw [List.find?_eq_none]
    intro x hx hp
    simp only [Bool.and_eq_true, beq_iff_eq] at hp
    rw [h x hx hp.1] at hp
    exact Bool.false_ne_true hp.2
  unfold logout
  simp only [hn]

/-- Claim C5: logout always reports success and is idempotent: the endpoint
revokes the session behind the token jti when an active one exists and
returns the success message; invoking it again with the same token, when
the session is already revoked, returns the same success message with the
database unchanged. -/
theorem logout_idempotent_success (st : Settings) (db : DB) (now : Int) (t : Token)
    (hauth : st.FEATURE_FLAG_AUTH = true)
    (hsig : t.sig = st.JWT_SECRET_KEY)
    (hexp : now < t.payload.exp)
    (hjti : t.payload.jti ≠ "")
    (huniq : ∀ s1 ∈ db.sessions, ∀ s2 ∈ db.sessions,
        s1.token_jti = t.payload.jti → s2.token_jti = t.payload.jti →
        s1.id = s2.id) :
    router_logout st db now (some t) =
      .ok ("Successfully logged out", (logout db t.payload.jti).2) ∧
    (∀ x ∈ (logout db t.payload.jti).2.sessions,
        x.token_jti = t.payload.jti → x.is_active = false) ∧
    router_logout st (logout db t.payload.jti).2 now (some t) =
      .ok ("Successfully logged out", (logout db t.payload.jti).2) := by
  have hdec := decode_token_ok hsig hexp
  refine ⟨?_, logout_all_inactive huniq, ?_⟩
  · unfold router_logout
    rw [if_pos hauth]
    simp only [hdec]
    rw [if_neg hjti]
  · unfold router_logout
    rw [if_pos hauth]
    simp only [hdec]
    rw [if_neg hjti]
    rw [logout_noop_of_all_inactive (logout_all_inactive huniq)]

theorem logout_idempotent_success_witness :
    router_logout defaultSettings dbC5 100 (some tokC5) =
      .ok ("Successfully logged out", (logout dbC5 "a5").2) ∧
    router_logout defaultSettings (logout dbC5 "a5").2 100 (some tokC5) =
      .ok ("Successfully logged out", (logout dbC5 "a5").2) := by
  have h := logout_idempotent_success defaultSettings dbC5 100 tokC5
    (by decide) (by decide) (by decide) (by decide) (by decide)
  exact ⟨h.1, h.2.2⟩

/-- Claim C6: switching to an organization where the user has no active
membership fails with no new session and leaves the database, and hence the
session behind the current jti, unchanged and unrevoked. -/
theorem switch_organization_not_member (st : Settings) (db : DB)
    (uid org : Nat) (jti : String) (f : Fresh) (now : Int)
    (hmem : is_organization_member db uid org = false) :
    switch_organization st db uid org jti f now = (none, db) ∧
    ∀ s, get_session_by_jti db jti = some s →
      get_session_by_jti (switch_organization st db uid org jti f now).2 jti =
        some s := by
  have h1 : switch_organization st db uid org jti f now = (none, db) := by
    unfold switch_organization
    rw [if_neg (by simp [hmem])]
  refine ⟨h1, ?_⟩
  intro s hs
  rw [h1]
  exact hs

theorem switch_organization_not_member_witness :
    is_organization_member dbC6 1 5 = false ∧
    switch_organization defaultSettings dbC6 1 5 "a6" ⟨2, "x", "y"⟩ 0 =
      (none, dbC6) :=
  ⟨by decide,
   (switch_organization_not_member defaultSettings dbC6 1 5 "a6" ⟨2, "x", "y"⟩ 0
     (by decide)).1⟩

/-- Claim C9: refresh_tokens succeeds whenever the session row behind the
refresh jti is active and its user is active; the session expires_at field
is never consulted, so success holds regardless of whether it has passed at
the time of the call. -/
theorem refresh_ignores_session_expiry (st : Settings) (db : DB) (j : String)
    (f : Fresh) (now : Int) (s : Session) (u : User)
    (hfind : get_session_by_refresh_jti db j = some s)
    (huser : get_user_by_id db s.user_id = some u)
    (hact : u.is_active = true) :
    ((refresh_tokens st db j f now).1).isSome = true := by
  unfold refresh_tokens
  simp [hfind, huser, hact]

theorem refresh_ignores_session_expiry_witness :
    session_is_valid
      { id := 1, user_id := 1, token_jti := "a9",
        refresh_token_jti := some "r9", organization_id := none,
        expires_at := 10, is_active := true } 1000 = false ∧
    ((refresh_tokens defaultSettings dbC9 "r9" ⟨2, "x9", "y9"⟩ 1000).1).isSome =
      true :=
  ⟨by decide,
   refresh_ignores_session_expiry defaultSettings dbC9 "r9" ⟨2, "x9", "y9"⟩ 1000
     { id := 1, user_id := 1, token_jti := "a9",
       refresh_token_jti := some "r9", organization_id := none,
       expires_at := 10, is_active := true }
     userW (by decide) (by decide) (by decide)⟩

/-- Claim C4 (the code lacks the claimed retry cap): along any finite
sequence of random draws that all collide with existing organization access
codes, the _generate_access_code loop neither returns a code nor reports an
error, whatever the length of the sequence — the while-True loop in the
source is unbounded and has no failure path. -/
theorem generate_access_code_unbounded (db : DB) : ∀ draws : List String,
    (∀ c ∈ draws, access_code_taken db c = true) →
    generate_access_code_loop db draws = none := by
  intro draws
  induction draws with
  | nil => intro _; rfl
  | cons c rest ih =>
    intro hall
    have hc : access_code_taken db c = true := hall c (by simp)
    unfold generate_access_code_loop
    rw [if_pos hc]
    exact ih (fun x hx => hall x (List.mem_cons_of_mem _ hx))

theorem generate_access_code_unbounded_witness :
    access_code_taken dbC4 "AAAAAA" = true ∧
    generate_access_code_loop dbC4 ["AAAAAA", "AAAAAA", "AAAAAA"] = none :=
  ⟨by decide,
   generate_access_code_unbounded dbC4 ["AAAAAA", "AAAAAA", "AAAAAA"]
     (by decide)⟩

end VoiceCheck
